import Mathlib

/-!
# Verification of the voyage-ai trip-planning backend core

Shallow embedding of the session workflow engine of `src/backend/src`:
the slot extractor (`agent/nodes/intent_slot.py`), the planner loop and
tool dispatcher (`agent/nodes/planner.py`), the review gate and graph
routing (`agent/nodes/review.py`, `agent/graph.py`), the chat endpoint
resume logic (`api/trips.py`) and the cache-key builders
(`agent/tools/cache.py`, `agent/tools/flights.py`).

Modelling conventions:
* Python dict truthiness (`slots.get(f)` being falsy for `None`, `""`,
  `0`, `[]`) is modelled by explicit `truthy*` predicates over `Option`
  and `List` fields.
* Date strings are modelled by `DateStr`: a well-formed `YYYY-MM-DD`
  string is `DateStr.valid d` with `d` the day number (so
  `strftime`/`strptime` round-trip), and any string `strptime` rejects
  is `DateStr.malformed raw`; `datetime.now()` is an explicit `now`
  day-number parameter.
* The text-generation service and the two external lookups are opaque
  oracles (function parameters), as the spec treats them.
-/

universe u

/-! ## Dates (`datetime.strptime` / `strftime`, `timedelta(days=n)`) -/

/-- A date-slot value: either a well-formed `YYYY-MM-DD` string, carried
as its day number, or a string `strptime` fails on. -/
inductive DateStr where
  | valid (day : Int)
  | malformed (raw : String)
  deriving DecidableEq, Repr

/-- `datetime.strptime(s, "%Y-%m-%d")` wrapped in `try/except`:
`some day` when the string parses, `none` when it raises. -/
def DateStr.parse : DateStr → Option Int
  | .valid d => some d
  | .malformed _ => none

/-! ## Truthiness of slot values (Python `if not slots.get(field)`) -/

/-- Truthiness of an optional string slot: missing and `""` are falsy. -/
def truthyS : Option String → Bool
  | none => false
  | some s => s ≠ ""

/-- Truthiness of an optional numeric slot: missing and `0` are falsy. -/
def truthyI : Option Int → Bool
  | none => false
  | some n => n ≠ 0

/-- Truthiness of an optional date slot: missing and `""` are falsy;
a well-formed date renders as a non-empty string, hence is truthy. -/
def truthyD : Option DateStr → Bool
  | none => false
  | some (.valid _) => true
  | some (.malformed raw) => raw ≠ ""

/-- Truthiness of a list slot: the empty list is falsy. -/
def truthyL (l : List String) : Bool := !l.isEmpty

/-! ## The requirement set (`trip_request` dict / `SlotFillingResponse`,
`agent/schemas.py` lines 7-25)

Each slot is optional until filled, mirroring the `Optional[...]`
pydantic fields and the open `trip_request` dict. Numeric budgets are
modelled as `Int` (the code never computes on them). -/

structure Slots where
  destination : Option String := none
  destination_iata : Option String := none
  origin : Option String := none
  origin_iata : Option String := none
  duration_days : Option Int := none
  budget_min : Option Int := none
  budget_max : Option Int := none
  travel_group : Option String := none
  traveler_count : Option Int := none
  start_date : Option DateStr := none
  end_date : Option DateStr := none
  interests : List String := []
  constraints : List String := []
  deriving DecidableEq, Repr

/-! ## The merge (`intent_slot.py` lines 187-189)

`merged_slots = {**existing_slots, **{k: v for k, v in new_slots.items() if v}}`
with `new_slots = slot_response.dict(exclude={...}, exclude_none=True)`:
a field of the extraction overwrites the prior value exactly when it is
truthy (`exclude_none` drops `None`, `if v` drops the remaining falsy
values), otherwise the prior value stays. -/

/-- Field-level merge for string slots: keep `new` only when truthy. -/
def pickS (old new : Option String) : Option String :=
  if truthyS new then new else old

/-- Field-level merge for numeric slots: keep `new` only when truthy. -/
def pickI (old new : Option Int) : Option Int :=
  if truthyI new then new else old

/-- Field-level merge for date slots: keep `new` only when truthy. -/
def pickD (old new : Option DateStr) : Option DateStr :=
  if truthyD new then new else old

/-- Field-level merge for list slots: keep `new` only when non-empty. -/
def pickL (old new : List String) : List String :=
  if truthyL new then new else old

/-- The dict merge of `intent_slot.py` line 189, field by field. -/
def mergeSlots (existing new : Slots) : Slots where
  destination := pickS existing.destination new.destination
  destination_iata := pickS existing.destination_iata new.destination_iata
  origin := pickS existing.origin new.origin
  origin_iata := pickS existing.origin_iata new.origin_iata
  duration_days := pickI existing.duration_days new.duration_days
  budget_min := pickI existing.budget_min new.budget_min
  budget_max := pickI existing.budget_max new.budget_max
  travel_group := pickS existing.travel_group new.travel_group
  traveler_count := pickI existing.traveler_count new.traveler_count
  start_date := pickD existing.start_date new.start_date
  end_date := pickD existing.end_date new.end_date
  interests := pickL existing.interests new.interests
  constraints := pickL existing.constraints new.constraints

/-! ## `_compute_end_date` (`intent_slot.py` lines 86-95) -/

/-- The end date `_compute_end_date` leaves in the slots: when
`start_date` and `duration_days` are truthy and `end_date` is not,
parse the start date and return `start_date + duration_days`; a parse
failure is swallowed (`except (ValueError, TypeError): pass`), keeping
the old value. -/
def compute_end_date_val (slots : Slots) : Option DateStr :=
  if truthyD slots.start_date ∧ truthyI slots.duration_days ∧ ¬ truthyD slots.end_date then
    match slots.start_date with
    | some ds =>
      match ds.parse, slots.duration_days with
      | some d, some dur => some (.valid (d + dur))
      | _, _ => slots.end_date
    | none => slots.end_date
  else slots.end_date

/-- `_compute_end_date` (the source assigns only `slots["end_date"]`). -/
def compute_end_date (slots : Slots) : Slots :=
  { slots with end_date := compute_end_date_val slots }

/-! ## `_check_completeness` (`intent_slot.py` lines 98-118) -/

/-- The `group_defaults` table: `{"solo": 1, "couple": 2, "family": 4,
"friends": 4}.get(group, 2)`. -/
def group_default (g : String) : Int :=
  if g = "solo" then 1
  else if g = "couple" then 2
  else if g = "family" then 4
  else if g = "friends" then 4
  else 2

/-- `_check_completeness`: required slots are destination, duration,
start date, origin and a maximum budget; when all are present it
defaults `travel_group` to `"solo"`, derives `traveler_count` from the
group (fallback 2 for an unknown group), auto-computes the end date and
reports completeness. The early `return False` paths leave the slots
untouched (the mutations sit after the required-field checks). -/
def check_completeness (slots : Slots) : Slots × Bool :=
  if ¬ truthyS slots.destination ∨ ¬ truthyI slots.duration_days ∨
     ¬ truthyD slots.start_date ∨ ¬ truthyS slots.origin then
    (slots, false)
  else if ¬ truthyI slots.budget_max then
    (slots, false)
  else
    let s1 := if ¬ truthyS slots.travel_group then
                { slots with travel_group := some "solo" } else slots
    let s2 := if ¬ truthyI s1.traveler_count then
                { s1 with traveler_count := some (group_default (s1.travel_group.getD "")) }
              else s1
    (compute_end_date s2, true)

/-! ## Round-limit force-fill (`intent_slot.py` lines 15, 197-215) -/

def MAX_CLARIFICATION_ROUNDS : Nat := 3

/-- The force-fill block of `intent_slot_node`: each still-missing
required field gets its fixed default (`now + 30` is the
`datetime.now() + timedelta(days=30)` start date), then
`_compute_end_date` runs once more. The source performs the fills as a
sequence of `if not merged_slots.get(f)` statements; since each test
reads a field no earlier fill writes, the sequence equals this
field-wise record update. -/
def force_fill (now : Int) (slots : Slots) : Slots :=
  compute_end_date
    { slots with
      destination := if ¬ truthyS slots.destination then some "Tokyo, Japan" else slots.destination,
      origin := if ¬ truthyS slots.origin then some "New York" else slots.origin,
      duration_days := if ¬ truthyI slots.duration_days then some 5 else slots.duration_days,
      start_date := if ¬ truthyD slots.start_date then some (.valid (now + 30)) else slots.start_date,
      budget_max := if ¬ truthyI slots.budget_max then some 2000 else slots.budget_max,
      travel_group := if ¬ truthyS slots.travel_group then some "solo" else slots.travel_group,
      traveler_count := if ¬ truthyI slots.traveler_count then some 1 else slots.traveler_count }

/-- The completeness phase of `intent_slot_node` (lines 194-215): check
completeness of the merged slots, and when the clarification counter has
reached the ceiling without completeness, force-fill and mark complete.
Returns the final slots and the `slots_complete` flag. -/
def intent_slot_post (now : Int) (clarification_count : Nat) (merged : Slots) : Slots × Bool :=
  let r := check_completeness merged
  if MAX_CLARIFICATION_ROUNDS ≤ clarification_count ∧ r.2 = false then
    (force_fill now r.1, true)
  else
    r

/-! ## Tool dispatcher (`agent/nodes/planner.py` lines 24-30, 87-105)

The two whitelisted lookups are opaque oracles
`fl ho : String → Except String String`: a parameter blob in, either a
result payload (`Except.ok`) or a raised exception message
(`Except.error`). Round results are a Python dict, modelled as an
association list in insertion order with in-place replacement. -/

/-- A requested tool call: `{"tool_name": ..., "parameters": ...}`. -/
structure ToolReq where
  tool_name : String
  parameters : String
  deriving DecidableEq, Repr

/-- One entry of a round result dict: a structured result payload or a
structured error dict `{"error": msg}`. -/
inductive ToolRes where
  | ok (payload : String)
  | err (msg : String)
  deriving DecidableEq, Repr

/-- An accumulated entry of `all_tool_results`: a plain result dict, or
the ordered list a repeated tool name gets converted into. -/
inductive ToolVal where
  | single (r : ToolRes)
  | list (rs : List ToolRes)
  deriving DecidableEq, Repr

/-- Python dict insertion: replace in place when the key exists,
append otherwise (insertion order preserved). -/
def dinsert {α : Type u} (d : List (String × α)) (k : String) (v : α) : List (String × α) :=
  match d with
  | [] => [(k, v)]
  | (k1, v1) :: rest => if k1 = k then (k1, v) :: rest else (k1, v1) :: dinsert rest k v

/-- Python dict lookup `d.get(k)` / `k in d`. -/
def dlookup {α : Type u} (k : String) : List (String × α) → Option α
  | [] => none
  | (k1, v) :: rest => if k1 = k then some v else dlookup k rest

/-- The names of `TOOL_REGISTRY` (planner.py lines 27-30). -/
def TOOL_REGISTRY_NAMES : List String := ["search_flights", "search_hotels"]

/-- Dispatch a registered tool through its oracle, with the
`try/except Exception` of `_execute_tools` capturing a raised exception
as a structured error for that entry. -/
def callRegistered (fl ho : String → Except String String) (name params : String) : ToolRes :=
  match (if name = "search_flights" then fl params else ho params) with
  | .ok payload => .ok payload
  | .error e => .err e

/-- The per-request result of `_execute_tools`: an unrecognized name
yields the structured unknown-tool error, a registered name runs the
lookup with exceptions captured. -/
def runReq (fl ho : String → Except String String) (req : ToolReq) : ToolRes :=
  if req.tool_name ∈ TOOL_REGISTRY_NAMES then
    callRegistered fl ho req.tool_name req.parameters
  else
    .err ("Unknown tool: " ++ req.tool_name)

/-- One iteration of the `for req in tool_requests` loop of
`_execute_tools`: both the unknown-tool branch (`continue`) and the
`try/except` branch store into `results[tool_name]` and move on. -/
def execStep (fl ho : String → Except String String)
    (results : List (String × ToolRes)) (req : ToolReq) : List (String × ToolRes) :=
  if req.tool_name ∈ TOOL_REGISTRY_NAMES then
    dinsert results req.tool_name (callRegistered fl ho req.tool_name req.parameters)
  else
    dinsert results req.tool_name (.err ("Unknown tool: " ++ req.tool_name))

/-- `_execute_tools` (planner.py lines 87-105): fold the batch into an
initially empty result dict; no request aborts the loop. -/
def execute_tools (fl ho : String → Except String String)
    (tool_requests : List ToolReq) : List (String × ToolRes) :=
  tool_requests.foldl (execStep fl ho) []

/-! ## Tool-result accumulation (`planner.py` lines 219-228) -/

/-- One step of the accumulation loop
`for tool_name, result in round_results.items()`: a name already stored
as a list gets the new result appended, a name stored as a plain result
is converted to the two-element list (earlier first), a new name is
stored plain. -/
def mergeStep (acc : List (String × ToolVal)) (kv : String × ToolRes) :
    List (String × ToolVal) :=
  match dlookup kv.1 acc with
  | some (.list rs) => dinsert acc kv.1 (.list (rs ++ [kv.2]))
  | some (.single r) => dinsert acc kv.1 (.list [r, kv.2])
  | none => dinsert acc kv.1 (.single kv.2)

/-- Merge one round result dict into `all_tool_results`, iterating the
round dict in insertion order. -/
def mergeResults (acc : List (String × ToolVal)) (round : List (String × ToolRes)) :
    List (String × ToolVal) :=
  round.foldl mergeStep acc

/-! ## The planner LLM response (`agent/schemas.py` lines 30-56)

`PlannerLLMResponse` with its pydantic defaults; `budget_allocation` and
`cost_estimates` are flat dicts of numbers. -/

structure PlannerResp where
  stop : Bool := false
  reasoning : String := ""
  tool_requests : List ToolReq := []
  summary : String := ""
  selected_cities : List String := []
  key_experiences : List String := []
  budget_allocation : List (String × Int) := []
  cost_estimates : List (String × Int) := []
  recommendations : List String := []
  warnings : List String := []
  deriving DecidableEq, Repr

/-- `strategy_dict = final_strategy.dict(exclude={"tool_requests", "stop"})`
(planner.py line 273). -/
structure Strategy where
  reasoning : String
  summary : String
  selected_cities : List String
  key_experiences : List String
  budget_allocation : List (String × Int)
  cost_estimates : List (String × Int)
  recommendations : List String
  warnings : List String
  deriving DecidableEq, Repr

/-- Drop `stop` and `tool_requests` from a parsed response. -/
def toStrategy (r : PlannerResp) : Strategy where
  reasoning := r.reasoning
  summary := r.summary
  selected_cities := r.selected_cities
  key_experiences := r.key_experiences
  budget_allocation := r.budget_allocation
  cost_estimates := r.cost_estimates
  recommendations := r.recommendations
  warnings := r.warnings

/-- One LLM turn of the planner loop as the oracle reports it: either a
response `_parse_llm_response` accepts, or text that raises in parsing. -/
inductive LLMOut where
  | parsed (r : PlannerResp)
  | garbage
  deriving Repr

/-! ## The planner loop (`planner.py` lines 24, 121-287) -/

def MAX_TOOL_ROUNDS : Nat := 10

/-- The loop-carried locals of `planner_node` (lines 174-176), plus a
count of text-generation calls made. -/
structure LoopSt where
  all_tool_results : List (String × ToolVal) := []
  all_tool_calls : List ToolReq := []
  final_strategy : Option PlannerResp := none
  llm_calls : Nat := 0
  deriving Repr

/-- The `for round_num in range(1, MAX_TOOL_ROUNDS + 1)` loop
(planner.py lines 178-258), fuelled so that `round_num + fuel =
MAX_TOOL_ROUNDS + 1` on entry. Each entered round makes exactly one
text-generation call (`llm round_num`). A parse failure on a non-final
round retries (consuming the round); on the final round it breaks with
whatever was saved. A parsed `stop` response breaks and is kept. A
parsed response with neither `stop` nor tool requests is nudged and NOT
saved into `final_strategy`. Otherwise the requested tools run, the
round results are merged into the accumulator, and the response is
saved as the latest strategy. -/
def plannerLoopAux (llm : Nat → LLMOut) (fl ho : String → Except String String) :
    Nat → Nat → LoopSt → LoopSt
  | 0, _, st => st
  | fuel + 1, round_num, st =>
    let st := { st with llm_calls := st.llm_calls + 1 }
    match llm round_num with
    | .garbage =>
      if round_num < MAX_TOOL_ROUNDS then
        plannerLoopAux llm fl ho fuel (round_num + 1) st
      else
        st
    | .parsed r =>
      if r.stop then
        { st with final_strategy := some r }
      else if r.tool_requests.isEmpty then
        plannerLoopAux llm fl ho fuel (round_num + 1) st
      else
        let round_results := execute_tools fl ho r.tool_requests
        plannerLoopAux llm fl ho fuel (round_num + 1)
          { st with
            all_tool_calls := st.all_tool_calls ++ r.tool_requests,
            all_tool_results := mergeResults st.all_tool_results round_results,
            final_strategy := some r }

/-- The full planner loop from round 1 with an empty accumulator. -/
def plannerLoop (llm : Nat → LLMOut) (fl ho : String → Except String String) : LoopSt :=
  plannerLoopAux llm fl ho MAX_TOOL_ROUNDS 1 {}

/-- The hand-built minimal fallback strategy (planner.py lines 261-271),
used when no valid response was ever saved. -/
def fallbackResp (trip_request : Slots) : PlannerResp where
  stop := true
  summary := "Trip to " ++ trip_request.destination.getD "destination"
  selected_cities := [trip_request.destination.getD ""]
  key_experiences := ["Local food", "Cultural sites", "City exploration"]
  budget_allocation := [("flights", 30), ("hotels", 35), ("activities", 20),
                        ("food", 10), ("misc", 5)]
  cost_estimates := [("total", trip_request.budget_max.getD 2000)]
  recommendations := ["Explore local food markets", "Visit cultural landmarks"]

/-- The state update `planner_node` returns (lines 260-287), restricted
to its data fields: the tool-call log, the accumulated tool results and
the strategy dict. -/
structure PlannerOut where
  tool_plan : List ToolReq
  tool_results : List (String × ToolVal)
  trip_strategy : Strategy
  deriving Repr

/-- `planner_node` after the loop: take the last saved strategy or the
fallback, and strip `stop`/`tool_requests`. -/
def planner_node_result (llm : Nat → LLMOut) (fl ho : String → Except String String)
    (trip_request : Slots) : PlannerOut :=
  let st := plannerLoop llm fl ho
  { tool_plan := st.all_tool_calls,
    tool_results := st.all_tool_results,
    trip_strategy := toStrategy (st.final_strategy.getD (fallbackResp trip_request)) }

/-! ## Graph state and node updates (`agent/state.py`, `agent/graph.py`)

`AgentState` restricted to the fields the workflow claims touch
(`user_id`/`user_preferences` never influence routing or review state
and are omitted). A node returns a partial update; LangGraph applies it
by replacing every returned key and APPENDING `messages`
(`Annotated[list, add]`). The generated itinerary payload is opaque
here (`Option String`), since no routing decision reads its content;
`trip_strategy` is `Option Strategy` with `none` standing for the
initial empty dict (falsy in Python). AI message texts are abbreviated:
no claim depends on their wording. -/

/-- A chat transcript entry `{"role": r, "content": c}`. -/
abbrev Msg := String × String

structure GState where
  messages : List Msg := []
  trip_request : Slots := {}
  slots_complete : Bool := false
  clarification_count : Nat := 0
  tool_plan : List ToolReq := []
  tool_results : List (String × ToolVal) := []
  trip_strategy : Option Strategy := none
  itinerary : Option String := none
  review_status : String := ""
  review_feedback : String := ""
  trip_id : String := ""
  itinerary_version_id : String := ""
  current_node : String := ""
  deriving Repr

/-- A partial state update as a node (or `aupdate_state`) returns it:
`none` = key absent from the returned dict. -/
structure Upd where
  messages : List Msg := []
  trip_request : Option Slots := none
  slots_complete : Option Bool := none
  clarification_count : Option Nat := none
  tool_plan : Option (List ToolReq) := none
  tool_results : Option (List (String × ToolVal)) := none
  trip_strategy : Option (Option Strategy) := none
  itinerary : Option (Option String) := none
  review_status : Option String := none
  review_feedback : Option String := none
  trip_id : Option String := none
  itinerary_version_id : Option String := none
  current_node : Option String := none

/-- LangGraph state application: returned keys replace, `messages`
appends (`operator.add` reducer). -/
def applyUpd (s : GState) (u : Upd) : GState where
  messages := s.messages ++ u.messages
  trip_request := u.trip_request.getD s.trip_request
  slots_complete := u.slots_complete.getD s.slots_complete
  clarification_count := u.clarification_count.getD s.clarification_count
  tool_plan := u.tool_plan.getD s.tool_plan
  tool_results := u.tool_results.getD s.tool_results
  trip_strategy := u.trip_strategy.getD s.trip_strategy
  itinerary := u.itinerary.getD s.itinerary
  review_status := u.review_status.getD s.review_status
  review_feedback := u.review_feedback.getD s.review_feedback
  trip_id := u.trip_id.getD s.trip_id
  itinerary_version_id := u.itinerary_version_id.getD s.itinerary_version_id
  current_node := u.current_node.getD s.current_node

/-! ## Review gate (`agent/nodes/review.py` lines 13-46,
`agent/graph.py` lines 37-45) -/

/-- `review_node`: `review_status == "approved"` routes to the
finalizer and returns no review keys; anything else returns
`review_status = "revision_requested"` with the feedback taken verbatim
from the state, routing back to the planner. -/
def review_node_upd (s : GState) : Upd :=
  if s.review_status = "approved" then
    { current_node := some "finalizer",
      messages := [("ai", "Itinerary approved! Saving your trip now...")] }
  else
    { review_status := some "revision_requested",
      review_feedback := some s.review_feedback,
      current_node := some "planner",
      messages := [("ai", "Replanning from your feedback.")] }

/-- `_route_after_review` (graph.py lines 37-45): the conditional edge
reads the state AFTER `review_node` ran. -/
def route_after_review (s : GState) : String :=
  if s.review_status = "approved" then "finalizer" else "planner"

/-! ## Planner, itinerary generator and finalizer as state updates -/

/-- The revision input `planner_node` reads (planner.py line 136:
`review_feedback = state.get("review_feedback", "")`). -/
def plannerFeedbackInput (s : GState) : String := s.review_feedback

/-- The revision-mode test of planner.py line 151
(`if review_feedback and previous_strategy:`). -/
def plannerRevisionMode (s : GState) : Bool :=
  plannerFeedbackInput s ≠ "" && s.trip_strategy.isSome

/-- `planner_node` as a state update (planner.py lines 275-287): the
returned dict holds exactly `tool_plan`, `tool_results`,
`trip_strategy`, `current_node` and one appended message — in
particular NO `review_status` or `review_feedback` key. -/
def planner_node_upd (llm : Nat → LLMOut) (fl ho : String → Except String String)
    (s : GState) : Upd :=
  let out := planner_node_result llm fl ho s.trip_request
  { tool_plan := some out.tool_plan,
    tool_results := some out.tool_results,
    trip_strategy := some (some out.trip_strategy),
    current_node := some "itinerary_gen",
    messages := [("ai", "Planning complete! Now generating your day-by-day itinerary...")] }

/-- `itinerary_gen_node` as a state update (itinerary_gen.py lines
97-104): exactly `itinerary`, `current_node` and one message; the
payload (parsed LLM output or its fallback) is the opaque oracle `io`. -/
def itinerary_gen_upd (io : String) : Upd :=
  { itinerary := some (some io),
    current_node := some "finalizer",
    messages := [("ai", "Your itinerary is ready!")] }

/-- `finalizer_node` as a state update (finalizer.py lines 106-114);
the database-generated identifiers are oracle parameters. -/
def finalizer_upd (trip_id version_id : String) : Upd :=
  { trip_id := some trip_id,
    itinerary_version_id := some version_id,
    current_node := some "done",
    messages := [("ai", "Your trip has been saved!")] }

/-! ## Resuming the graph from the pause before `review`
(`graph.py` lines 48-101: edges `review → (finalizer | planner)`,
`planner → itinerary_gen → review` with `interrupt_before=["review"]`,
`finalizer → END`) -/

/-- `ainvoke(None, config)` on a graph paused before `review`: run the
review node, follow the conditional edge, and either finalize and end
(`next = []`) or re-run planner and itinerary generation and pause
before `review` again (`next = ["review"]`). Returns the final state
and the snapshot `next` tuple. -/
def resumeFromReviewPause (llm : Nat → LLMOut) (fl ho : String → Except String String)
    (io trip_id version_id : String) (s0 : GState) : GState × List String :=
  let s1 := applyUpd s0 (review_node_upd s0)
  if route_after_review s1 = "finalizer" then
    (applyUpd s1 (finalizer_upd trip_id version_id), [])
  else
    let s2 := applyUpd s1 (planner_node_upd llm fl ho s1)
    let s3 := applyUpd s2 (itinerary_gen_upd io)
    (s3, ["review"])

/-! ## The chat endpoint resume path (`api/trips.py` lines 138-299)

The checkpoint store maps a thread id to its latest snapshot
`(values, next)` (MemorySaver). `aget_state` on a thread with no
checkpoint returns an empty snapshot (`values = {}`, `next = ()`),
never an error. Only the resume path (`thread_id` supplied, lines
193-299) is modelled; the model is total because the handler has no
failure branch of its own (its only `raise` re-wraps an exception from
a collaborator as a generic 500). -/

abbrev Store := List (String × (GState × List String))

/-- `aget_state`: the stored snapshot, or the empty snapshot for an
unknown thread id. -/
def getSnapshot (store : Store) (thread_id : String) : GState × List String :=
  (dlookup thread_id store).getD ({}, [])

/-- The affirmative token set of trips.py line 203, applied to
`message.strip().lower()`. -/
def isAffirmative (message : String) : Bool :=
  message.trim.toLower ∈
    ["approve", "yes", "looks good", "confirm", "ok", "lgtm", "perfect"]

/-- The `aupdate_state` patch of the approval branch (lines 205-212). -/
def approvePatch (message : String) : Upd :=
  { review_status := some "approved",
    review_feedback := some "",
    messages := [("user", message)] }

/-- The `aupdate_state` patch of the revision branch (lines 215-222):
the feedback is the raw user message. -/
def revisionPatch (message : String) : Upd :=
  { review_status := some "revision_requested",
    review_feedback := some message,
    messages := [("user", message)] }

/-- The `aupdate_state` patch of the clarification/follow-up branch
(lines 232-238, `as_node="initializer"`). -/
def msgPatch (message : String) : Upd :=
  { messages := [("user", message)] }

/-- A chat endpoint response (status and echoed thread id; the `data`
payload is not needed by any claim). -/
structure ChatResp where
  status : String
  thread_id : String
  deriving DecidableEq, Repr

/-- The response selection of trips.py lines 243-299: paused before
review → `"reviewing"`; slots incomplete → `"clarifying"`; finalized
trip id present → `"complete"`; otherwise → `"planning"`. -/
def mkChatResp (thread_id : String) (s : GState) (next : List String) : ChatResp :=
  if "review" ∈ next then { status := "reviewing", thread_id := thread_id }
  else if ¬ s.slots_complete then { status := "clarifying", thread_id := thread_id }
  else if s.trip_id ≠ "" then { status := "complete", thread_id := thread_id }
  else { status := "planning", thread_id := thread_id }

/-- The resume path of the chat endpoint (lines 193-299), for a request
that supplies `thread_id`. `run` is the opaque graph invocation used on
the clarification/follow-up branch (`ainvoke(None)` after re-entering
as the initializer); the review branch resumes through
`resumeFromReviewPause`. Every `aupdate_state` persists a checkpoint
for the thread before the graph is invoked; there is no branch that
fails for an unknown thread id. -/
def chat_resume (llm : Nat → LLMOut) (fl ho : String → Except String String)
    (io trip_id version_id : String) (run : GState → GState × List String)
    (store : Store) (thread_id message : String) : ChatResp × Store :=
  let snap := getSnapshot store thread_id
  if "review" ∈ snap.2 then
    let patch := if isAffirmative message then approvePatch message else revisionPatch message
    let s1 := applyUpd snap.1 patch
    let store1 := dinsert store thread_id (s1, snap.2)
    let r := resumeFromReviewPause llm fl ho io trip_id version_id s1
    (mkChatResp thread_id r.1 r.2, dinsert store1 thread_id r)
  else
    let s1 := applyUpd snap.1 (msgPatch message)
    let store1 := dinsert store thread_id (s1, ["intent_slot"])
    let r := run s1
    (mkChatResp thread_id r.1 r.2, dinsert store1 thread_id r)

/-! ## Cache keys (`agent/tools/cache.py` lines 18-24,
`agent/tools/flights.py` lines 23-32)

`json.dumps` on a flat dict of strings/numbers/None with
`sort_keys=True` is modelled exactly: entries sorted by key, rendered
as `{"k": v, ...}` with Python separators. The SHA-256 hex digest is an
opaque `digest : String → List Char` parameter (64 hex characters for
the real function); both builders truncate it to 16 characters. -/

/-- A flat JSON value as the key builders use them. -/
inductive JVal where
  | jstr (s : String)
  | jint (n : Int)
  | jnull
  deriving DecidableEq, Repr

/-- `json.dumps` rendering of one flat value. -/
def JVal.render : JVal → String
  | .jstr s => "\"" ++ s ++ "\""
  | .jint n => toString n
  | .jnull => "null"

/-- Lexicographic code-point comparison of strings (Python string
order; the keys involved are ASCII). -/
def strLeChars : List Char → List Char → Bool
  | [], _ => true
  | _ :: _, [] => false
  | a :: as, b :: bs =>
    if Nat.blt a.toNat b.toNat then true
    else if Nat.blt b.toNat a.toNat then false
    else strLeChars as bs

/-- Insert one entry into a key-sorted list (Python lexicographic
string order). -/
def insertByKey (e : String × JVal) : List (String × JVal) → List (String × JVal)
  | [] => [e]
  | f :: rest => if strLeChars e.1.data f.1.data then e :: f :: rest else f :: insertByKey e rest

/-- Sort entries by key: `sorted(kwargs.items())` / `sort_keys=True`. -/
def sortEntries : List (String × JVal) → List (String × JVal)
  | [] => []
  | e :: rest => insertByKey e (sortEntries rest)

/-- `json.dumps(dict, sort_keys=True)` on a flat dict, with the default
separators `", "` and `": "`. -/
def jsonDumpsSorted (entries : List (String × JVal)) : String :=
  "\x7b" ++ String.intercalate ", "
    ((sortEntries entries).map fun e => "\"" ++ e.1 ++ "\": " ++ e.2.render) ++ "\x7d"

/-- The non-null filter of cache.py line 21
(`if v is not None`; `None` is the only value dropped). -/
def nonNullEntries (entries : List (String × JVal)) : List (String × JVal) :=
  entries.filter fun e => e.2 ≠ JVal.jnull

/-- `_build_cache_key` of cache.py lines 18-24: drop null kwargs, dump
the rest sorted, hash, truncate to 16 hex chars, and prefix. -/
def build_cache_key (digest : String → List Char) (pre : String)
    (kwargs : List (String × JVal)) : String :=
  let raw := jsonDumpsSorted (nonNullEntries kwargs)
  "cache:" ++ pre ++ ":" ++ String.mk ((digest raw).take 16)

/-- The fixed parameter map `_build_cache_key` of flights.py lines
23-32 serializes: it always contains the `fn` tag and the (possibly
null) return date. -/
def flightsKeyEntries (origin destination departure_date : String)
    (return_date : Option String) (travelers : Int) : List (String × JVal) :=
  [("fn", .jstr "search_flights"),
   ("o", .jstr origin), ("d", .jstr destination),
   ("dd", .jstr departure_date),
   ("rd", (return_date.map JVal.jstr).getD JVal.jnull),
   ("t", .jint travelers)]

/-- The raw string flights.py hashes (its `json.dumps(..., sort_keys=True)`). -/
def flightsCacheRaw (origin destination departure_date : String)
    (return_date : Option String) (travelers : Int) : String :=
  jsonDumpsSorted (flightsKeyEntries origin destination departure_date return_date travelers)

/-- `_build_cache_key` of flights.py: hash the fixed map (nulls
included), truncate to 16, prefix `cache:flights:`. -/
def flights_build_cache_key (digest : String → List Char)
    (origin destination departure_date : String)
    (return_date : Option String) (travelers : Int) : String :=
  "cache:flights:" ++ String.mk
    ((digest (flightsCacheRaw origin destination departure_date return_date travelers)).take 16)

/-- Hex-digit test for the digest alphabet of `hexdigest()`. -/
def isHexChar (c : Char) : Bool :=
  c.isDigit || ('a' ≤ c && c ≤ 'f')

/-! # Theorems -/

/-! ## Shared helper lemmas -/

theorem pickS_idem (o n : Option String) : pickS (pickS o n) n = pickS o n := by
  unfold pickS; split <;> simp

theorem pickI_idem (o n : Option Int) : pickI (pickI o n) n = pickI o n := by
  unfold pickI; split <;> simp

theorem pickD_idem (o n : Option DateStr) : pickD (pickD o n) n = pickD o n := by
  unfold pickD; split <;> simp

theorem pickL_idem (o n : List String) : pickL (pickL o n) n = pickL o n := by
  unfold pickL; split <;> simp

/-- `_compute_end_date` writes at most the `end_date` field. -/
theorem compute_end_date_frame (s : Slots) :
    compute_end_date s = { s with end_date := compute_end_date_val s } := rfl

/-- When start and duration are truthy, the end date absent, and the
start date well-formed, `_compute_end_date` sets `end = start + dur`. -/
theorem compute_end_date_valid (s : Slots) (d dur : Int)
    (hs : s.start_date = some (.valid d)) (hdur : s.duration_days = some dur)
    (hdtr : truthyI s.duration_days = true) (hend : truthyD s.end_date = false) :
    compute_end_date_val s = some (.valid (d + dur)) := by
  unfold compute_end_date_val
  rw [if_pos]
  · rw [hs]
    simp only [DateStr.parse, hdur]
  · refine ⟨by rw [hs]; rfl, by simp [hdtr], by simp [hend]⟩

/-- A malformed start date makes `_compute_end_date` a no-op on
`end_date` (the `strptime` failure is swallowed). -/
theorem compute_end_date_malformed (s : Slots) (raw : String)
    (hs : s.start_date = some (.malformed raw)) :
    compute_end_date_val s = s.end_date := by
  unfold compute_end_date_val
  split
  · rw [hs]
    simp only [DateStr.parse]
  · rfl

/-- A truthy end date is kept by `_compute_end_date`. -/
theorem compute_end_date_val_keep (s : Slots) (h : truthyD s.end_date = true) :
    compute_end_date_val s = s.end_date := by
  unfold compute_end_date_val
  rw [if_neg]
  simp [h]

/-- A truthy end date makes `_compute_end_date` the identity. -/
theorem compute_end_date_keep (s : Slots) (h : truthyD s.end_date = true) :
    compute_end_date s = s := by
  show { s with end_date := compute_end_date_val s } = s
  rw [compute_end_date_val_keep s h]

/-- The incomplete branches of `_check_completeness` return the slots
untouched. -/
theorem check_incomplete_id (s : Slots) (h : (check_completeness s).2 = false) :
    (check_completeness s).1 = s := by
  unfold check_completeness at h ⊢
  split_ifs at h ⊢ <;> simp_all

/-! ## C5 — the requirement-set merge -/

/-- C5: For every prior requirement set and every extraction result,
the merge of `intent_slot.py` line 189 overwrites only fields the
extraction actually populated — a falsy (empty/omitted) extraction
field never clears the previously-filled value — and merging the same
extraction a second time into the already-merged set yields the same
set (idempotence). -/
theorem c5_merge_preserves_and_idempotent (p e : Slots) :
    mergeSlots (mergeSlots p e) e = mergeSlots p e ∧
    (truthyS e.destination = false → (mergeSlots p e).destination = p.destination) ∧
    (truthyS e.destination_iata = false → (mergeSlots p e).destination_iata = p.destination_iata) ∧
    (truthyS e.origin = false → (mergeSlots p e).origin = p.origin) ∧
    (truthyS e.origin_iata = false → (mergeSlots p e).origin_iata = p.origin_iata) ∧
    (truthyI e.duration_days = false → (mergeSlots p e).duration_days = p.duration_days) ∧
    (truthyI e.budget_min = false → (mergeSlots p e).budget_min = p.budget_min) ∧
    (truthyI e.budget_max = false → (mergeSlots p e).budget_max = p.budget_max) ∧
    (truthyS e.travel_group = false → (mergeSlots p e).travel_group = p.travel_group) ∧
    (truthyI e.traveler_count = false → (mergeSlots p e).traveler_count = p.traveler_count) ∧
    (truthyD e.start_date = false → (mergeSlots p e).start_date = p.start_date) ∧
    (truthyD e.end_date = false → (mergeSlots p e).end_date = p.end_date) ∧
    (truthyL e.interests = false → (mergeSlots p e).interests = p.interests) ∧
    (truthyL e.constraints = false → (mergeSlots p e).constraints = p.constraints) := by
  refine ⟨?_, ?_, ?_, ?_, ?_, ?_, ?_, ?_, ?_, ?_, ?_, ?_, ?_, ?_⟩
  · simp [mergeSlots, pickS_idem, pickI_idem, pickD_idem, pickL_idem]
  all_goals intro h
  all_goals simp [mergeSlots, pickS, pickI, pickD, pickL, h]

/-! ## C10 — the traveler-count fallback for an unknown group -/

/-- C10: When `_check_completeness` passes (all required slots truthy)
with a `travel_group` outside the documented set and `traveler_count`
still missing, `group_defaults.get(group, 2)` defaults the traveler
count to 2, and the slots are reported complete. -/
theorem c10_unknown_group_defaults_to_two (s : Slots) (g : String)
    (hdest : truthyS s.destination = true)
    (hdur : truthyI s.duration_days = true)
    (hstart : truthyD s.start_date = true)
    (horig : truthyS s.origin = true)
    (hbud : truthyI s.budget_max = true)
    (hg : s.travel_group = some g) (hge : g ≠ "")
    (hout : g ∉ (["solo", "couple", "family", "friends"] : List String))
    (htc : truthyI s.traveler_count = false) :
    (check_completeness s).1.traveler_count = some 2 ∧
    (check_completeness s).2 = true := by
  have hgt : truthyS s.travel_group = true := by rw [hg]; simp [truthyS, hge]
  simp only [List.mem_cons, List.mem_singleton, not_or] at hout
  obtain ⟨h1, h2, h3, h4, -⟩ := hout
  simp only [check_completeness]
  rw [if_neg (by simp [hdest, hdur, hstart, horig]), if_neg (by simp [hbud]),
      if_neg (show ¬ ¬ (truthyS s.travel_group = true) from by simp [hgt]),
      if_pos (show ¬ (truthyI s.traveler_count = true) from by simp [htc])]
  refine ⟨?_, rfl⟩
  rw [compute_end_date_frame]
  simp [hg, group_default, h1, h2, h3, h4]

/-- Witness for `c10_unknown_group_defaults_to_two` at a concrete
requirement set with `travel_group = "team"`. -/
theorem c10_unknown_group_defaults_to_two_witness :
    (check_completeness
      { destination := some "Tokyo", origin := some "Delhi",
        duration_days := some 4, budget_max := some 1500,
        start_date := some (DateStr.valid 100),
        travel_group := some "team" }).1.traveler_count = some 2 :=
  (c10_unknown_group_defaults_to_two
    { destination := some "Tokyo", origin := some "Delhi",
      duration_days := some 4, budget_max := some 1500,
      start_date := some (DateStr.valid 100),
      travel_group := some "team" } "team"
    (by decide) (by decide) (by decide) (by decide) (by decide)
    rfl (by decide) (by decide) (by decide)).1

/-! ## C3 — the clarification round-limit force-fill -/

/-- Projections of `force_fill` before the final end-date pass. -/
theorem force_fill_frame (now : Int) (s : Slots) :
    force_fill now s =
      { s with
        destination := if ¬ truthyS s.destination then some "Tokyo, Japan" else s.destination,
        origin := if ¬ truthyS s.origin then some "New York" else s.origin,
        duration_days := if ¬ truthyI s.duration_days then some 5 else s.duration_days,
        start_date := if ¬ truthyD s.start_date then some (.valid (now + 30)) else s.start_date,
        budget_max := if ¬ truthyI s.budget_max then some 2000 else s.budget_max,
        travel_group := if ¬ truthyS s.travel_group then some "solo" else s.travel_group,
        traveler_count := if ¬ truthyI s.traveler_count then some 1 else s.traveler_count,
        end_date := compute_end_date_val
          { s with
            destination := if ¬ truthyS s.destination then some "Tokyo, Japan" else s.destination,
            origin := if ¬ truthyS s.origin then some "New York" else s.origin,
            duration_days := if ¬ truthyI s.duration_days then some 5 else s.duration_days,
            start_date := if ¬ truthyD s.start_date then some (.valid (now + 30)) else s.start_date,
            budget_max := if ¬ truthyI s.budget_max then some 2000 else s.budget_max,
            travel_group := if ¬ truthyS s.travel_group then some "solo" else s.travel_group,
            traveler_count := if ¬ truthyI s.traveler_count then some 1 else s.traveler_count } } :=
  rfl

/-- C3 (amended): once the clarification counter reaches the ceiling
with the merged requirement set still incomplete, `intent_slot_node`
marks the slots complete and fills every still-missing required field
with exactly the fixed defaults, leaving filled fields (and the
untouched optional fields) unchanged. The end date is derived as
`start + duration` only when it was not already truthy and the
(possibly defaulted) start date is a well-formed date; a malformed
pre-existing start date leaves `end_date` unchanged even though the
slots are marked complete. -/
theorem c3_force_fill_defaults (now : Int) (k : Nat) (s : Slots)
    (hk : MAX_CLARIFICATION_ROUNDS ≤ k)
    (hinc : (check_completeness s).2 = false) :
    (intent_slot_post now k s).2 = true ∧
    (intent_slot_post now k s).1.destination =
      (if truthyS s.destination then s.destination else some "Tokyo, Japan") ∧
    (intent_slot_post now k s).1.origin =
      (if truthyS s.origin then s.origin else some "New York") ∧
    (intent_slot_post now k s).1.duration_days =
      (if truthyI s.duration_days then s.duration_days else some 5) ∧
    (intent_slot_post now k s).1.start_date =
      (if truthyD s.start_date then s.start_date else some (DateStr.valid (now + 30))) ∧
    (intent_slot_post now k s).1.budget_max =
      (if truthyI s.budget_max then s.budget_max else some 2000) ∧
    (intent_slot_post now k s).1.travel_group =
      (if truthyS s.travel_group then s.travel_group else some "solo") ∧
    (intent_slot_post now k s).1.traveler_count =
      (if truthyI s.traveler_count then s.traveler_count else some 1) ∧
    (intent_slot_post now k s).1.destination_iata = s.destination_iata ∧
    (intent_slot_post now k s).1.origin_iata = s.origin_iata ∧
    (intent_slot_post now k s).1.budget_min = s.budget_min ∧
    (intent_slot_post now k s).1.interests = s.interests ∧
    (intent_slot_post now k s).1.constraints = s.constraints ∧
    (truthyD s.end_date = true → (intent_slot_post now k s).1.end_date = s.end_date) ∧
    (∀ d dur, truthyD s.end_date = false →
      (if truthyD s.start_date then s.start_date else some (DateStr.valid (now + 30))) =
        some (DateStr.valid d) →
      (if truthyI s.duration_days then s.duration_days else some 5) = some dur →
      (intent_slot_post now k s).1.end_date = some (DateStr.valid (d + dur))) ∧
    (∀ raw, s.start_date = some (DateStr.malformed raw) → raw ≠ "" →
      (intent_slot_post now k s).1.end_date = s.end_date) := by
  have key : intent_slot_post now k s = (force_fill now s, true) := by
    simp only [intent_slot_post]
    rw [if_pos ⟨hk, hinc⟩, check_incomplete_id s hinc]
  rw [key, force_fill_frame]
  refine ⟨rfl, ?_, ?_, ?_, ?_, ?_, ?_, ?_, rfl, rfl, rfl, rfl, rfl, ?_, ?_, ?_⟩
  · by_cases h : truthyS s.destination <;> simp [h]
  · by_cases h : truthyS s.origin <;> simp [h]
  · by_cases h : truthyI s.duration_days <;> simp [h]
  · by_cases h : truthyD s.start_date <;> simp [h]
  · by_cases h : truthyI s.budget_max <;> simp [h]
  · by_cases h : truthyS s.travel_group <;> simp [h]
  · by_cases h : truthyI s.traveler_count <;> simp [h]
  · -- end date already truthy: kept
    intro h
    exact compute_end_date_val_keep _ h
  · -- end date derived from a well-formed (or defaulted) start date
    intro d dur h0 hsd hdd
    refine compute_end_date_valid _ d dur ?_ ?_ ?_ h0
    · show (if ¬ truthyD s.start_date then some (DateStr.valid (now + 30))
            else s.start_date) = some (DateStr.valid d)
      by_cases hb : truthyD s.start_date <;> simp only [hb] at hsd ⊢ <;> simpa using hsd
    · show (if ¬ truthyI s.duration_days then some 5 else s.duration_days) = some dur
      by_cases hb : truthyI s.duration_days <;> simp only [hb] at hdd ⊢ <;> simpa using hdd
    · show truthyI (if ¬ truthyI s.duration_days then some 5 else s.duration_days) = true
      by_cases hb : truthyI s.duration_days
      · rw [if_neg (by simp [hb])]; exact hb
      · rw [if_pos (by simp [hb])]; decide
  · -- malformed pre-existing start date: end date untouched
    intro raw hraw hne
    have hst : truthyD s.start_date = true := by rw [hraw]; simp [truthyD, hne]
    refine compute_end_date_malformed _ raw ?_
    show (if ¬ truthyD s.start_date then some (DateStr.valid (now + 30))
          else s.start_date) = some (DateStr.malformed raw)
    simp [hraw, truthyD, hne]

/-- Witness for `c3_force_fill_defaults`: three clarification rounds
with nothing ever supplied end complete with the Tokyo default. -/
theorem c3_force_fill_defaults_witness :
    (intent_slot_post 0 3 {}).2 = true ∧
    (intent_slot_post 0 3 {}).1.destination = some "Tokyo, Japan" := by
  have h := c3_force_fill_defaults 0 3 {} (by decide) (by decide)
  exact ⟨h.1, h.2.1.trans (by decide)⟩

/-- C3 counterexample: with the clarification ceiling reached and a
truthy but malformed `start_date` (`"soon"`, which `strptime` rejects),
the run marks the slots complete yet leaves `end_date` unset, so the
claimed `end_date = start_date + duration_days` equation holds for no
day number — the claim as stated is false at this input. -/
theorem c3_counterexample :
    (intent_slot_post 0 3 { start_date := some (DateStr.malformed "soon") }).2 = true ∧
    (intent_slot_post 0 3 { start_date := some (DateStr.malformed "soon") }).1.end_date = none ∧
    ¬ ∃ d dur : Int,
        (intent_slot_post 0 3 { start_date := some (DateStr.malformed "soon") }).1.start_date =
          some (DateStr.valid d) ∧
        (intent_slot_post 0 3 { start_date := some (DateStr.malformed "soon") }).1.duration_days =
          some dur ∧
        (intent_slot_post 0 3 { start_date := some (DateStr.malformed "soon") }).1.end_date =
          some (DateStr.valid (d + dur)) := by
  refine ⟨by decide, by decide, ?_⟩
  rintro ⟨d, dur, -, -, h3⟩
  have he : (intent_slot_post 0 3 { start_date := some (DateStr.malformed "soon") }).1.end_date
      = none := by decide
  rw [he] at h3
  exact Option.noConfusion h3

/-! ## Dict lemmas and C7 — batch tool execution -/

theorem dlookup_dinsert {α : Type u} (d : List (String × α)) (k kq : String) (v : α) :
    dlookup kq (dinsert d k v) = if k = kq then some v else dlookup kq d := by
  induction d with
  | nil => by_cases h : k = kq <;> simp [dinsert, dlookup, h]
  | cons e rest ih =>
    obtain ⟨k1, v1⟩ := e
    by_cases h1 : k1 = k
    · subst h1
      by_cases h2 : k1 = kq <;> simp [dinsert, dlookup, h2]
    · by_cases h2 : k1 = kq
      · subst h2
        have hk : ¬ k = k1 := fun h => h1 h.symm
        simp [dinsert, dlookup, h1, hk]
      · simp [dinsert, dlookup, h1, h2, ih]

/-- Each iteration of `_execute_tools` stores exactly the per-request
result, whichever branch ran. -/
theorem execStep_eq (fl ho : String → Except String String)
    (d : List (String × ToolRes)) (r : ToolReq) :
    execStep fl ho d r = dinsert d r.tool_name (runReq fl ho r) := by
  unfold execStep runReq
  split <;> rfl

/-- A key expected in the initial dict or written by some request is
present after the whole batch ran (no request aborts the loop). -/
theorem dlookup_foldl_some (fl ho : String → Except String String)
    (reqs : List ToolReq) (d : List (String × ToolRes)) (k : String)
    (hinit : (dlookup k d).isSome = true ∨ ∃ r ∈ reqs, r.tool_name = k) :
    (dlookup k (reqs.foldl (execStep fl ho) d)).isSome = true := by
  induction reqs generalizing d with
  | nil =>
    rcases hinit with h | ⟨r, hr, -⟩
    · simpa using h
    · exact absurd hr (List.not_mem_nil r)
  | cons r rest ih =>
    rw [List.foldl_cons, execStep_eq]
    refine ih _ ?_
    rcases hinit with h | ⟨r1, hr1, hname⟩
    · left
      rw [dlookup_dinsert]
      split <;> simp_all
    · rcases List.mem_cons.1 hr1 with rfl | hmem
      · left
        rw [hname, dlookup_dinsert, if_pos rfl]
        rfl
      · right
        exact ⟨r1, hmem, hname⟩

/-- When every request that writes a key writes the same value, the key
holds that value after the batch, provided the initial dict held it or
some request writes it. -/
theorem dlookup_foldl_const (fl ho : String → Except String String)
    (reqs : List ToolReq) (d : List (String × ToolRes)) (k : String) (v : ToolRes)
    (hall : ∀ r : ToolReq, r.tool_name = k → runReq fl ho r = v)
    (hinit : dlookup k d = some v ∨ ∃ r ∈ reqs, r.tool_name = k) :
    dlookup k (reqs.foldl (execStep fl ho) d) = some v := by
  induction reqs generalizing d with
  | nil =>
    rcases hinit with h | ⟨r, hr, -⟩
    · simpa using h
    · exact absurd hr (List.not_mem_nil r)
  | cons r rest ih =>
    rw [List.foldl_cons, execStep_eq]
    refine ih _ ?_
    by_cases hk : r.tool_name = k
    · left
      rw [dlookup_dinsert, if_pos hk, hall r hk]
    · rcases hinit with h | ⟨r1, hr1, hname⟩
      · left
        rw [dlookup_dinsert, if_neg hk]
        exact h
      · rcases List.mem_cons.1 hr1 with rfl | hmem
        · exact absurd hname hk
        · right
          exact ⟨r1, hmem, hname⟩

/-- C7: `_execute_tools` keys an entry for every request of the batch;
a request whose tool name is outside the `TOOL_REGISTRY` whitelist
yields the structured unknown-tool error at its entry; the batch is a
plain left fold, so the requests after any failing prefix are still
executed; and an exception raised by either lookup is captured as a
structured error for that request alone. -/
theorem c7_execute_tools_isolation (fl ho : String → Except String String)
    (reqs : List ToolReq) :
    (∀ req ∈ reqs, (dlookup req.tool_name (execute_tools fl ho reqs)).isSome = true) ∧
    (∀ req ∈ reqs, req.tool_name ∉ TOOL_REGISTRY_NAMES →
      dlookup req.tool_name (execute_tools fl ho reqs) =
        some (.err ("Unknown tool: " ++ req.tool_name))) ∧
    (∀ rs1 rs2 : List ToolReq,
      execute_tools fl ho (rs1 ++ rs2) = rs2.foldl (execStep fl ho) (execute_tools fl ho rs1)) ∧
    (∀ p e, fl p = .error e →
      runReq fl ho { tool_name := "search_flights", parameters := p } = .err e) ∧
    (∀ p e, ho p = .error e →
      runReq fl ho { tool_name := "search_hotels", parameters := p } = .err e) := by
  refine ⟨?_, ?_, ?_, ?_, ?_⟩
  · intro req hmem
    exact dlookup_foldl_some fl ho reqs [] req.tool_name (Or.inr ⟨req, hmem, rfl⟩)
  · intro req hmem hout
    refine dlookup_foldl_const fl ho reqs [] req.tool_name _ ?_ (Or.inr ⟨req, hmem, rfl⟩)
    intro r hname
    unfold runReq
    rw [if_neg (by rw [hname]; exact hout), hname]
  · intro rs1 rs2
    exact List.foldl_append (execStep fl ho) [] rs1 rs2
  · intro p e h
    simp [runReq, callRegistered, TOOL_REGISTRY_NAMES, h]
  · intro p e h
    simp [runReq, callRegistered, TOOL_REGISTRY_NAMES, h]

/-! ## C4 — tool-result accumulation -/

/-- C4 (amended): across rounds of one planning pass, a repeated tool
name is retained as an ordered list — the first repeat converts the
stored plain result into `[earlier, later]` and further repeats append
— but WITHIN one round `_execute_tools` keys its result dict by tool
name, so a same-round duplicate overwrites the earlier entry before the
accumulator ever sees it (only one value per name per round enters the
accumulation). -/
theorem c4_accumulation_across_rounds (fl ho : String → Except String String)
    (name p1 p2 : String) :
    (dlookup name (mergeResults []
        (execute_tools fl ho [{ tool_name := name, parameters := p1 }])) =
      some (.single (runReq fl ho { tool_name := name, parameters := p1 }))) ∧
    (dlookup name (mergeResults
        (mergeResults [] (execute_tools fl ho [{ tool_name := name, parameters := p1 }]))
        (execute_tools fl ho [{ tool_name := name, parameters := p2 }])) =
      some (.list [runReq fl ho { tool_name := name, parameters := p1 },
                   runReq fl ho { tool_name := name, parameters := p2 }])) ∧
    (∀ (acc : List (String × ToolVal)) (rs : List ToolRes) (r : ToolRes),
      dlookup name acc = some (.list rs) →
      dlookup name (mergeResults acc [(name, r)]) = some (.list (rs ++ [r]))) ∧
    (∀ (acc : List (String × ToolVal)) (r0 r : ToolRes),
      dlookup name acc = some (.single r0) →
      dlookup name (mergeResults acc [(name, r)]) = some (.list [r0, r])) := by
  have hexec : ∀ p, execute_tools fl ho [{ tool_name := name, parameters := p }] =
      [(name, runReq fl ho { tool_name := name, parameters := p })] := by
    intro p
    show execStep fl ho [] { tool_name := name, parameters := p } = _
    rw [execStep_eq]
    rfl
  refine ⟨?_, ?_, ?_, ?_⟩
  · rw [hexec]
    show dlookup name (mergeStep [] (name, _)) = _
    simp [mergeStep, dlookup, dinsert]
  · rw [hexec, hexec]
    show dlookup name (mergeStep (mergeStep [] (name, _)) (name, _)) = _
    simp [mergeStep, dlookup, dinsert]
  · intro acc rs r h
    show dlookup name (mergeStep acc (name, r)) = _
    simp only [mergeStep, h]
    rw [dlookup_dinsert, if_pos rfl]
  · intro acc r0 r h
    show dlookup name (mergeStep acc (name, r)) = _
    simp only [mergeStep, h]
    rw [dlookup_dinsert, if_pos rfl]

/-- C4 counterexample: two calls to `search_flights` in the SAME round.
`_execute_tools` keys its per-round dict by tool name, so the second
call overwrites the first and the accumulator receives a single plain
result — not the ordered two-element list the claim requires for
same-round duplicates (the earlier result `F:A` is lost). -/
theorem c4_counterexample :
    mergeResults [] (execute_tools
        (fun p => Except.ok ("F:" ++ p)) (fun p => Except.ok ("H:" ++ p))
        [{ tool_name := "search_flights", parameters := "A" },
         { tool_name := "search_flights", parameters := "B" }]) =
      [("search_flights", ToolVal.single (ToolRes.ok "F:B"))] ∧
    mergeResults [] (execute_tools
        (fun p => Except.ok ("F:" ++ p)) (fun p => Except.ok ("H:" ++ p))
        [{ tool_name := "search_flights", parameters := "A" },
         { tool_name := "search_flights", parameters := "B" }]) ≠
      [("search_flights", ToolVal.list [ToolRes.ok "F:A", ToolRes.ok "F:B"])] := by
  constructor <;> decide

/-! ## C8 — the planner round loop -/

/-- Unfolding equation: a round whose response fails to parse. -/
theorem plannerLoopAux_garbage (llm : Nat → LLMOut) (fl ho : String → Except String String)
    (n round : Nat) (st : LoopSt) (hr : llm round = .garbage) :
    plannerLoopAux llm fl ho (n + 1) round st =
      if round < MAX_TOOL_ROUNDS then
        plannerLoopAux llm fl ho n (round + 1) { st with llm_calls := st.llm_calls + 1 }
      else { st with llm_calls := st.llm_calls + 1 } := by
  rw [plannerLoopAux, hr]

/-- Unfolding equation: a round whose response parses. -/
theorem plannerLoopAux_parsed (llm : Nat → LLMOut) (fl ho : String → Except String String)
    (n round : Nat) (st : LoopSt) (r : PlannerResp) (hr : llm round = .parsed r) :
    plannerLoopAux llm fl ho (n + 1) round st =
      if r.stop then { st with final_strategy := some r, llm_calls := st.llm_calls + 1 }
      else if r.tool_requests.isEmpty then
        plannerLoopAux llm fl ho n (round + 1) { st with llm_calls := st.llm_calls + 1 }
      else
        plannerLoopAux llm fl ho n (round + 1)
          { st with
            all_tool_results :=
              mergeResults st.all_tool_results (execute_tools fl ho r.tool_requests),
            all_tool_calls := st.all_tool_calls ++ r.tool_requests,
            final_strategy := some r,
            llm_calls := st.llm_calls + 1 } := by
  rw [plannerLoopAux, hr]

/-- Each entered round makes exactly one text-generation call, so the
loop makes at most `fuel` further calls. -/
theorem plannerLoopAux_llm_calls_le (llm : Nat → LLMOut)
    (fl ho : String → Except String String) (fuel round : Nat) (st : LoopSt) :
    (plannerLoopAux llm fl ho fuel round st).llm_calls ≤ st.llm_calls + fuel := by
  induction fuel generalizing round st with
  | zero => simp [plannerLoopAux]
  | succ n ih =>
    cases hr : llm round with
    | garbage =>
      rw [plannerLoopAux_garbage llm fl ho n round st hr]
      split
      · exact (ih (round + 1) _).trans
          (by show st.llm_calls + 1 + n ≤ st.llm_calls + (n + 1); omega)
      · show st.llm_calls + 1 ≤ st.llm_calls + (n + 1)
        omega
    | parsed r =>
      rw [plannerLoopAux_parsed llm fl ho n round st r hr]
      split
      · show st.llm_calls + 1 ≤ st.llm_calls + (n + 1)
        omega
      · split
        · exact (ih (round + 1) _).trans
            (by show st.llm_calls + 1 + n ≤ st.llm_calls + (n + 1); omega)
        · exact (ih (round + 1) _).trans
            (by show st.llm_calls + 1 + n ≤ st.llm_calls + (n + 1); omega)

/-- Loop invariant: whatever `final_strategy` holds on exit was a
parsed response of some round within the ceiling that either stopped or
requested tools (nudged responses are never retained). -/
theorem plannerLoopAux_final_origin (llm : Nat → LLMOut)
    (fl ho : String → Except String String) (fuel round : Nat) (st : LoopSt)
    (hbound : round + fuel ≤ MAX_TOOL_ROUNDS + 1)
    (hinv : ∀ r, st.final_strategy = some r →
      ∃ i, 1 ≤ i ∧ i < round ∧ llm i = .parsed r ∧
        (r.stop = true ∨ r.tool_requests ≠ []))
    (hround : 1 ≤ round) :
    ∀ r, (plannerLoopAux llm fl ho fuel round st).final_strategy = some r →
      ∃ i, 1 ≤ i ∧ i ≤ MAX_TOOL_ROUNDS ∧ llm i = .parsed r ∧
        (r.stop = true ∨ r.tool_requests ≠ []) := by
  induction fuel generalizing round st with
  | zero =>
    intro r h
    obtain ⟨i, g1, g2, g3, g4⟩ := hinv r h
    exact ⟨i, g1, by omega, g3, g4⟩
  | succ n ih =>
    intro r h
    cases hr : llm round with
    | garbage =>
      rw [plannerLoopAux_garbage llm fl ho n round st hr] at h
      by_cases hlt : round < MAX_TOOL_ROUNDS
      · rw [if_pos hlt] at h
        refine ih (round + 1) _ (by omega) ?_ (by omega) r h
        intro r1 h1
        obtain ⟨i, g1, g2, g3, g4⟩ := hinv r1 h1
        exact ⟨i, g1, by omega, g3, g4⟩
      · rw [if_neg hlt] at h
        obtain ⟨i, g1, g2, g3, g4⟩ := hinv r h
        exact ⟨i, g1, by omega, g3, g4⟩
    | parsed r0 =>
      rw [plannerLoopAux_parsed llm fl ho n round st r0 hr] at h
      by_cases hstop : r0.stop = true
      · rw [if_pos hstop] at h
        have he : r0 = r := Option.some.inj h
        subst he
        exact ⟨round, hround, by omega, hr, Or.inl hstop⟩
      · rw [if_neg hstop] at h
        by_cases hemp : r0.tool_requests.isEmpty = true
        · rw [if_pos hemp] at h
          refine ih (round + 1) _ (by omega) ?_ (by omega) r h
          intro r1 h1
          obtain ⟨i, g1, g2, g3, g4⟩ := hinv r1 h1
          exact ⟨i, g1, by omega, g3, g4⟩
        · rw [if_neg hemp] at h
          refine ih (round + 1) _ (by omega) ?_ (by omega) r h
          intro r1 h1
          have he : r0 = r1 := Option.some.inj h1
          subst he
          refine ⟨round, hround, by omega, hr, Or.inr ?_⟩
          intro hnil
          rw [hnil] at hemp
          exact hemp rfl

/-- C8 (amended): for every behavior of the text-generation service and
of both lookups — including every tool call erroring — the planner loop
makes at most `MAX_TOOL_ROUNDS` text-generation calls and terminates;
the produced strategy is the retained response (some parsed response,
within the ceiling, that set `stop` or requested tools; responses with
neither are nudged and never retained) or, when no response was ever
retained, the hand-built fallback, whose summary, cities, experiences,
budget allocation, cost estimates and recommendations are all
non-empty. A parsed response, however, may carry empty fields into the
strategy. -/
theorem c8_planner_loop_bounded_with_fallback (llm : Nat → LLMOut)
    (fl ho : String → Except String String) (treq : Slots) :
    (plannerLoop llm fl ho).llm_calls ≤ MAX_TOOL_ROUNDS ∧
    (planner_node_result llm fl ho treq).trip_strategy =
      toStrategy ((plannerLoop llm fl ho).final_strategy.getD (fallbackResp treq)) ∧
    (∀ r, (plannerLoop llm fl ho).final_strategy = some r →
      ∃ i, 1 ≤ i ∧ i ≤ MAX_TOOL_ROUNDS ∧ llm i = .parsed r ∧
        (r.stop = true ∨ r.tool_requests ≠ [])) ∧
    ((fallbackResp treq).summary ≠ "" ∧
     (fallbackResp treq).selected_cities ≠ [] ∧
     (fallbackResp treq).key_experiences ≠ [] ∧
     (fallbackResp treq).budget_allocation ≠ [] ∧
     (fallbackResp treq).cost_estimates ≠ [] ∧
     (fallbackResp treq).recommendations ≠ []) := by
  refine ⟨?_, rfl, ?_, ?_, ?_, ?_, ?_, ?_, ?_⟩
  · have h := plannerLoopAux_llm_calls_le llm fl ho MAX_TOOL_ROUNDS 1 {}
    simpa using h
  · intro r h
    refine plannerLoopAux_final_origin llm fl ho MAX_TOOL_ROUNDS 1 {} (by decide) ?_
      (by decide) r h
    intro r1 h1
    exact absurd h1 (by simp)
  · show ("Trip to " ++ treq.destination.getD "destination") ≠ ""
    intro h
    have hlen := congrArg String.length h
    rw [String.length_append] at hlen
    simp at hlen
    exact absurd hlen.1 (by decide)
  all_goals simp [fallbackResp]

/-- C8 counterexample: a service response that parses on round one with
`stop = true` and every field left at its schema default becomes the
final strategy verbatim — its summary (and cities, estimates, ...) are
empty, so the claim that the produced strategy always has non-empty
summary, cities, experiences, budget allocation, cost estimates and
recommendations is false at this input (here both lookups also error,
though no tool is ever called). -/
theorem c8_counterexample :
    (planner_node_result (fun _ => LLMOut.parsed { stop := true })
        (fun _ => Except.error "flights down") (fun _ => Except.error "hotels down")
        {}).trip_strategy.summary = "" ∧
    (planner_node_result (fun _ => LLMOut.parsed { stop := true })
        (fun _ => Except.error "flights down") (fun _ => Except.error "hotels down")
        {}).trip_strategy.selected_cities = [] := by
  constructor <;> rfl

/-! ## C6 — the review gate contract -/

/-- C6: an `"approved"` decision routes the session to the finalizer;
any other decision value (the empty string included) routes it back to
the planner, with the feedback text carried verbatim through the review
node into the state field the planner reads as its revision input. -/
theorem c6_review_gate_contract (s : GState) :
    (s.review_status = "approved" →
      route_after_review (applyUpd s (review_node_upd s)) = "finalizer") ∧
    (s.review_status ≠ "approved" →
      route_after_review (applyUpd s (review_node_upd s)) = "planner" ∧
      (applyUpd s (review_node_upd s)).review_feedback = s.review_feedback ∧
      plannerFeedbackInput (applyUpd s (review_node_upd s)) = s.review_feedback) := by
  constructor
  · intro h
    simp [review_node_upd, h, applyUpd, route_after_review]
  · intro h
    simp [review_node_upd, h, applyUpd, route_after_review, plannerFeedbackInput]

/-- Witness for `c6_review_gate_contract`: a concrete state with the
empty-string decision routes to the planner and keeps its feedback. -/
theorem c6_review_gate_contract_witness :
    route_after_review
      (applyUpd { review_status := "", review_feedback := "cheaper hotels" }
        (review_node_upd { review_status := "", review_feedback := "cheaper hotels" }))
      = "planner" ∧
    (applyUpd { review_status := "", review_feedback := "cheaper hotels" }
        (review_node_upd { review_status := "", review_feedback := "cheaper hotels" })).review_feedback
      = "cheaper hotels" := by
  have h := (c6_review_gate_contract
    { review_status := "", review_feedback := "cheaper hotels" }).2 (by decide)
  exact ⟨h.1, h.2.1⟩

/-! ## C2 — the review decision across a revision pass -/

/-- C2 (amended): resuming a `ReviewPending` pause with a revision
patch routes back through planner and itinerary generation to the next
`ReviewPending` pause with `review_feedback` preserved verbatim — but
the review decision is NOT cleared: the state at the subsequent pause
carries `review_status = "revision_requested"` (set by the review
node; no later node writes the field). Staleness is masked only
because the endpoint overwrites the decision on every review resume. -/
theorem c2_revision_pass_keeps_decision (llm : Nat → LLMOut)
    (fl ho : String → Except String String) (io tid vid : String)
    (s : GState) (fb : String) :
    (resumeFromReviewPause llm fl ho io tid vid (applyUpd s (revisionPatch fb))).2
      = ["review"] ∧
    (resumeFromReviewPause llm fl ho io tid vid
        (applyUpd s (revisionPatch fb))).1.review_status = "revision_requested" ∧
    (resumeFromReviewPause llm fl ho io tid vid
        (applyUpd s (revisionPatch fb))).1.review_feedback = fb := by
  simp [resumeFromReviewPause, revisionPatch, applyUpd, review_node_upd,
        route_after_review, planner_node_upd, itinerary_gen_upd, finalizer_upd]

/-- C2 counterexample: a session paused at review with the prior
decision `"approved"`, resumed with revision feedback. At the next
`ReviewPending` pause the decision field is `"revision_requested"` —
not cleared to the empty/none value the claim requires. -/
theorem c2_counterexample :
    (resumeFromReviewPause (fun _ => LLMOut.garbage) (fun _ => Except.error "down")
        (fun _ => Except.error "down") "itinerary-v2" "T1" "V1"
        (applyUpd
          { review_status := "approved", slots_complete := true,
            itinerary := some "itinerary-v1",
            trip_strategy := some (toStrategy (fallbackResp {})) }
          (revisionPatch "add beaches"))).1.review_status = "revision_requested" ∧
    ¬ ((resumeFromReviewPause (fun _ => LLMOut.garbage) (fun _ => Except.error "down")
        (fun _ => Except.error "down") "itinerary-v2" "T1" "V1"
        (applyUpd
          { review_status := "approved", slots_complete := true,
            itinerary := some "itinerary-v1",
            trip_strategy := some (toStrategy (fallbackResp {})) }
          (revisionPatch "add beaches"))).1.review_status = "") ∧
    (resumeFromReviewPause (fun _ => LLMOut.garbage) (fun _ => Except.error "down")
        (fun _ => Except.error "down") "itinerary-v2" "T1" "V1"
        (applyUpd
          { review_status := "approved", slots_complete := true,
            itinerary := some "itinerary-v1",
            trip_strategy := some (toStrategy (fallbackResp {})) }
          (revisionPatch "add beaches"))).2 = ["review"] := by
  refine ⟨rfl, by decide, rfl⟩

/-! ## C1 — resuming with an unknown thread identifier -/

/-- C1 (amended): a chat request that supplies a thread identifier with
no checkpoint does NOT fail — the endpoint has no `SessionNotFound`
path. It falls into the clarification/follow-up branch, persists a
checkpoint for that identifier (`aupdate_state` as the initializer)
before invoking the graph, and answers with one of the four normal
statuses; a new session is thereby created as a side effect. -/
theorem c1_unknown_thread_creates_session (llm : Nat → LLMOut)
    (fl ho : String → Except String String) (io trip_id version_id : String)
    (run : GState → GState × List String) (store : Store) (tid message : String)
    (hmiss : dlookup tid store = none) :
    (dlookup tid (chat_resume llm fl ho io trip_id version_id run store tid message).2).isSome
      = true ∧
    ((chat_resume llm fl ho io trip_id version_id run store tid message).1.status = "reviewing" ∨
     (chat_resume llm fl ho io trip_id version_id run store tid message).1.status = "clarifying" ∨
     (chat_resume llm fl ho io trip_id version_id run store tid message).1.status = "complete" ∨
     (chat_resume llm fl ho io trip_id version_id run store tid message).1.status = "planning") := by
  have hsnap : getSnapshot store tid = ({}, []) := by
    simp [getSnapshot, hmiss]
  simp only [chat_resume, hsnap]
  rw [if_neg (by simp)]
  constructor
  · rw [dlookup_dinsert, if_pos rfl]
    rfl
  · unfold mkChatResp
    split_ifs <;> simp

/-- Witness for `c1_unknown_thread_creates_session`: the empty store
with a fresh thread identifier gets a persisted checkpoint. -/
theorem c1_unknown_thread_creates_session_witness :
    (dlookup "t-new"
      (chat_resume (fun _ => LLMOut.garbage) (fun _ => Except.error "x")
        (fun _ => Except.error "x") "itin" "T" "V" (fun s => (s, []))
        [] "t-new" "hello").2).isSome = true :=
  (c1_unknown_thread_creates_session (fun _ => LLMOut.garbage) (fun _ => Except.error "x")
    (fun _ => Except.error "x") "itin" "T" "V" (fun s => (s, []))
    [] "t-new" "hello" rfl).1

/-- C1 counterexample: resuming with a thread identifier absent from
the store. The claim demands a `SessionNotFound` failure with nothing
persisted; the code instead answers the normal `"clarifying"` status
and has persisted a checkpoint for that identifier. -/
theorem c1_counterexample :
    (chat_resume (fun _ => LLMOut.garbage) (fun _ => Except.error "x")
        (fun _ => Except.error "x") "itin" "T" "V" (fun s => (s, []))
        [] "t-unknown" "hi").1.status = "clarifying" ∧
    (dlookup "t-unknown"
      (chat_resume (fun _ => LLMOut.garbage) (fun _ => Except.error "x")
        (fun _ => Except.error "x") "itin" "T" "V" (fun s => (s, []))
        [] "t-unknown" "hi").2).isSome = true := by
  constructor <;> rfl

/-! ## C9 — cache-key derivation -/

/-- C9 (amended): the generic cache utility derives its key as
`cache:<prefix>:<16-hex-char truncation of the digest>` over the
serialized, key-sorted, non-null kwargs, so a null-valued parameter
never affects that key. The actual lookups, however, build their keys
from a FIXED parameter map serialized with the function-name tag and
with null values included (`"rd": null` for an absent return date), so
their hash is not computed over the non-null parameters only — see
`c9_counterexample`. Both layouts are `cache:<prefix>:<16 hex chars>`
when the digest is a 64-char hex digest (as `sha256().hexdigest()`
is). -/
theorem c9_cache_key_layout (digest : String → List Char)
    (hdig : ∀ raw, (digest raw).length = 64 ∧ ∀ c ∈ digest raw, isHexChar c = true) :
    (∀ pre kwargs k, build_cache_key digest pre ((k, JVal.jnull) :: kwargs) =
      build_cache_key digest pre kwargs) ∧
    (∀ pre kwargs, ∃ h : String,
      build_cache_key digest pre kwargs = "cache:" ++ pre ++ ":" ++ h ∧
      h.length = 16 ∧ (∀ c ∈ h.toList, isHexChar c = true)) ∧
    (∀ o d dd rd t, ∃ h : String,
      flights_build_cache_key digest o d dd rd t = "cache:flights:" ++ h ∧
      h.length = 16 ∧ (∀ c ∈ h.toList, isHexChar c = true) ∧
      h = String.mk ((digest (flightsCacheRaw o d dd rd t)).take 16)) := by
  have hx : ∀ raw, (String.mk ((digest raw).take 16)).length = 16 ∧
      ∀ c ∈ (String.mk ((digest raw).take 16)).toList, isHexChar c = true := by
    intro raw
    constructor
    · show ((digest raw).take 16).length = 16
      rw [List.length_take, (hdig raw).1]
      decide
    · intro c hc
      exact (hdig raw).2 c (List.mem_of_mem_take hc)
  refine ⟨?_, ?_, ?_⟩
  · intro pre kwargs k
    unfold build_cache_key
    simp [nonNullEntries, List.filter_cons]
  · intro pre kwargs
    exact ⟨_, rfl, hx _⟩
  · intro o d dd rd t
    exact ⟨_, rfl, (hx _).1, (hx _).2, rfl⟩

/-- Witness for `c9_cache_key_layout` with a concrete all-hex digest:
a null kwarg does not change the generic key. -/
theorem c9_cache_key_layout_witness :
    build_cache_key (fun _ => List.replicate 64 'a') "flights"
        [("rd", JVal.jnull), ("o", JVal.jstr "JFK")] =
      build_cache_key (fun _ => List.replicate 64 'a') "flights"
        [("o", JVal.jstr "JFK")] :=
  (c9_cache_key_layout (fun _ => List.replicate 64 'a')
    (by
      intro raw
      refine ⟨by simp, ?_⟩
      intro c hc
      rw [List.eq_of_mem_replicate hc]
      decide)).1 "flights" [("o", JVal.jstr "JFK")] "rd"

/-- C9 counterexample: the payload the flight lookup hashes for
`search_flights("JFK", "NRT", "2025-06-01", None, 1)` serializes the
null return date (and the function-name tag), so it is NOT the
serialization of the sorted non-null parameters only, contradicting the
claimed key derivation for this lookup. -/
theorem c9_counterexample :
    flightsCacheRaw "JFK" "NRT" "2025-06-01" none 1 =
      "\x7b\"d\": \"NRT\", \"dd\": \"2025-06-01\", \"fn\": \"search_flights\", \"o\": \"JFK\", \"rd\": null, \"t\": 1\x7d" ∧
    flightsCacheRaw "JFK" "NRT" "2025-06-01" none 1 ≠
      jsonDumpsSorted (nonNullEntries (flightsKeyEntries "JFK" "NRT" "2025-06-01" none 1)) := by
  constructor
  · rfl
  · decide
